import Mathlib

set_option linter.unusedVariables false

/-!
Shallow embedding of the Aster DEX program (`src/Solanaaster_dex.rs`), a
leveraged perpetual-futures accounting engine on Solana/Anchor, together with
theorems checking the specification's claims against it.

Modelling conventions:
* `u64`/`u16` values are `Nat`, `i64` values are `Int`; arithmetic is exact
  except where the source itself performs an explicit narrowing conversion:
  the `position_size as u64` cast in `open_position` is modelled as `% 2 ^ 64`
  (the Rust `u128 → u64` conversion takes the value modulo `2 ^ 64`).
* Rust `i64` division truncates toward zero; it is modelled by `Int.tdiv`
  (never by `/`, which on `Int` is Euclidean division in Lean).
* Rust `u64` division on nonnegative values is floor division, i.e. `Nat` `/`.
* The `u64` expression `position.collateral + pnl as u64 - fee` in
  `close_position` is modelled in `Int`; the modelled value is negative exactly
  when the `u64` subtraction underflows in the source (panic with
  overflow-checks, wrap-around without), so the model makes that corner
  visible instead of hiding it.
* Account plumbing (Pyth oracle loading, SPL token transfers, PDA seeds,
  lamport refunds, signatures) is outside the accounting core: the oracle
  price reaches each instruction as a `current_price : Nat` argument, and a
  returned `Except.error` means the whole instruction aborts with no state
  change and no fund movement (Solana's all-or-nothing execution).
* Pubkeys and the 32-byte market ids are opaque; they are modelled as `Nat`.
-/

namespace AsterDex

/-- Error codes of the program (`enum AsterDexError`). -/
inductive AsterDexError where
  | MarketInactive
  | InvalidLeverage
  | InsufficientCollateral
  | InvalidPosition
  | CannotLiquidateYet
  | Unauthorized
  | InvalidTokenAccount
  | InvalidMint
  | InvalidOracle
  | InvalidLiquidationThreshold
deriving DecidableEq

/-- `struct Market` (`#[account]`): per-instrument configuration.
`u64`/`u16`/`u8` fields are `Nat`, the `i64` timestamp is `Int`. -/
structure Market where
  admin : Nat
  oracle : Nat
  market_id : Nat
  min_collateral : Nat
  max_leverage : Nat
  liquidation_threshold : Nat
  is_active : Bool
  last_funding_index : Nat
  last_funding_time : Int
  bump : Nat
deriving DecidableEq

/-- `struct Position` (`#[account]`): one open leveraged trade. -/
structure Position where
  trader : Nat
  market_id : Nat
  collateral : Nat
  size : Nat
  is_long : Bool
  entry_price : Nat
  leverage : Nat
  open_time : Int
  collateral_mint : Nat
  last_funding_index : Nat
deriving DecidableEq

end AsterDex

deriving instance DecidableEq for Except

namespace AsterDex

/-- `fn calculate_pnl(position: &Position, current_price: u64) -> (i64, u64)`.
All `i64` arithmetic is exact `Int` arithmetic with `Int.tdiv` for the Rust
truncating division; the `u64` fee uses `Nat` floor division (identical to
Rust `u64` division). The source divides by `position.entry_price`; Rust
panics when it is `0` (Lean's total `Int.tdiv` returns `0` there), so
theorems about this function carry the documented caller obligation
`entry_price ≠ 0`. -/
def calculate_pnl (position : Position) (current_price : Nat) : Int × Nat :=
  let price_delta : Int :=
    if position.is_long then
      (current_price : Int) - (position.entry_price : Int)
    else
      (position.entry_price : Int) - (current_price : Int)
  let pnl_percentage : Int := Int.tdiv (price_delta * 10000) (position.entry_price : Int)
  let raw_pnl : Int := Int.tdiv (pnl_percentage * (position.size : Int)) 10000
  let fee : Nat := position.size * 10 / 10000
  (raw_pnl, fee)

/-- `initialize_market`: writes every configuration field and activates the
market. The source performs no validation of any argument. Fields the source
does not assign (`last_funding_index`, `last_funding_time`, `bump`) are zero
because Anchor's `init` zero-initializes fresh account data. -/
def initialize_market (admin : Nat) (price_feed : Nat) (market_id : Nat)
    (min_collateral : Nat) (max_leverage : Nat) (liquidation_threshold : Nat) : Market :=
  { admin := admin
    oracle := price_feed
    market_id := market_id
    min_collateral := min_collateral
    max_leverage := max_leverage
    liquidation_threshold := liquidation_threshold
    is_active := true
    last_funding_index := 0
    last_funding_time := 0
    bump := 0 }

/-- The `if let Some(min_col) = min_collateral` branch of `update_market`
(no validation). -/
def applyMinCollateral (m : Market) : Option Nat → Market
  | none => m
  | some v => { m with min_collateral := v }

/-- The `if let Some(max_lev) = max_leverage` branch of `update_market`:
`require!(max_lev >= 1 && max_lev <= 100, InvalidLeverage)`. -/
def applyMaxLeverage (m : Market) : Option Nat → Except AsterDexError Market
  | none => Except.ok m
  | some lev =>
      if 1 ≤ lev ∧ lev ≤ 100 then Except.ok { m with max_leverage := lev }
      else Except.error AsterDexError.InvalidLeverage

/-- The `if let Some(liq_threshold) = liquidation_threshold` branch of
`update_market`: `require!(liq_threshold > 0 && liq_threshold < 100,
InvalidLiquidationThreshold)`. -/
def applyLiquidationThreshold (m : Market) : Option Nat → Except AsterDexError Market
  | none => Except.ok m
  | some t =>
      if 0 < t ∧ t < 100 then Except.ok { m with liquidation_threshold := t }
      else Except.error AsterDexError.InvalidLiquidationThreshold

/-- The `if let Some(active_state) = is_active` branch of `update_market`. -/
def applyIsActive (m : Market) : Option Bool → Market
  | none => m
  | some b => { m with is_active := b }

/-- `update_market`: partial admin update, fields applied in source order; a
failed `require!` aborts the whole instruction (rendered by propagating the
error through the matches), so no partial update is ever persisted (the
admin check itself is an Anchor account constraint, outside this accounting
model). -/
def update_market (m : Market) (min_collateral : Option Nat) (max_leverage : Option Nat)
    (liquidation_threshold : Option Nat) (is_active : Option Bool) :
    Except AsterDexError Market :=
  let m1 := applyMinCollateral m min_collateral
  match applyMaxLeverage m1 max_leverage with
  | Except.error e => Except.error e
  | Except.ok m2 =>
    match applyLiquidationThreshold m2 liquidation_threshold with
    | Except.error e => Except.error e
    | Except.ok m3 => Except.ok (applyIsActive m3 is_active)

/-- `open_position`: validates (in source order) `market.is_active`,
`leverage >= 1 && leverage <= market.max_leverage`, and
`collateral_amount >= market.min_collateral`; then records the position.
`position_size` is the exact `u128` product (`u64 × u16 < 2 ^ 80`, no
overflow), and the stored `size` is its `as u64` narrowing, i.e. the product
modulo `2 ^ 64`. `current_price` is the value read from the Pyth feed;
`last_funding_index` is hard-coded to `0` by the source. On `Except.error`
nothing is created and no funds move. -/
def open_position (market : Market) (user : Nat) (market_id : Nat) (is_long : Bool)
    (collateral_amount : Nat) (leverage : Nat) (max_slippage_bps : Nat)
    (current_price : Nat) (open_time : Int) (collateral_mint : Nat) :
    Except AsterDexError Position :=
  if market.is_active then
    if 1 ≤ leverage ∧ leverage ≤ market.max_leverage then
      if market.min_collateral ≤ collateral_amount then
        let position_size : Nat := collateral_amount * leverage
        Except.ok
          { trader := user
            market_id := market_id
            collateral := collateral_amount
            size := position_size % 2 ^ 64
            is_long := is_long
            entry_price := current_price
            leverage := leverage
            open_time := open_time
            collateral_mint := collateral_mint
            last_funding_index := 0 }
      else Except.error AsterDexError.InsufficientCollateral
    else Except.error AsterDexError.InvalidLeverage
  else Except.error AsterDexError.MarketInactive

/-- `close_position`: requires `position.size > 0`, computes `(pnl, fee)` and
the `return_amount`, and (on success) pays `return_amount` to the trader and
destroys the position. The result is `(return_amount, pnl, fee)`.
`return_amount` follows the source branch structure exactly: when
`pnl >= 0` it is `position.collateral + pnl as u64 - fee` with no clamping
(negative model value = `u64` underflow in the source); when `pnl < 0` it is
`remaining` if positive else `0`. -/
def close_position (position : Position) (current_price : Nat) :
    Except AsterDexError (Int × Int × Nat) :=
  if 0 < position.size then
    let pf := calculate_pnl position current_price
    let pnl : Int := pf.1
    let fee : Nat := pf.2
    let return_amount : Int :=
      if 0 ≤ pnl then
        (position.collateral : Int) + pnl - (fee : Int)
      else
        let remaining : Int := (position.collateral : Int) + pnl - (fee : Int)
        if 0 < remaining then remaining else 0
    Except.ok (return_amount, pnl, fee)
  else Except.error AsterDexError.InvalidPosition

/-- `liquidate_position`: requires `position.size > 0`, computes `pnl` at the
current price, forms `equity_percentage = ((collateral as i64 + pnl) * 100) /
collateral as i64` (Rust truncating `i64` division, so `Int.tdiv`), fails
with `CannotLiquidateYet` unless `equity_percentage <=
market.liquidation_threshold`, and otherwise pays the liquidator
`position.collateral * 3 / 100` and destroys the position. The successful
result is the reward paid. Rust panics when `position.collateral = 0`
(division by zero); `Int.tdiv` is total, so theorems carry `0 < collateral`
where the claim does. -/
def liquidate_position (position : Position) (market : Market) (current_price : Nat) :
    Except AsterDexError Nat :=
  if 0 < position.size then
    let pnl : Int := (calculate_pnl position current_price).1
    let equity_percentage : Int :=
      Int.tdiv (((position.collateral : Int) + pnl) * 100) ((position.collateral : Nat) : Int)
    if equity_percentage ≤ (market.liquidation_threshold : Int) then
      Except.ok (position.collateral * 3 / 100)
    else Except.error AsterDexError.CannotLiquidateYet
  else Except.error AsterDexError.InvalidPosition

/-- `update_funding`: admin-gated funding snapshot update. -/
def update_funding (market : Market) (admin_key : Nat) (new_funding_index : Nat)
    (now : Int) : Except AsterDexError Market :=
  if market.admin = admin_key then
    Except.ok { market with last_funding_index := new_funding_index, last_funding_time := now }
  else Except.error AsterDexError.Unauthorized

/-- The Market invariant stated by the specification:
`1 ≤ max_leverage`, `0 < liquidation_threshold < 100`, `min_collateral ≥ 0`. -/
def marketInvariant (m : Market) : Prop :=
  1 ≤ m.max_leverage ∧ 0 < m.liquidation_threshold ∧ m.liquidation_threshold < 100 ∧
    0 ≤ m.min_collateral

instance (m : Market) : Decidable (marketInvariant m) := by
  unfold marketInvariant; infer_instance

/-- Sample position of the specification's concrete scenarios: long,
`collateral = 1000`, `leverage = 5`, `entry_price = 100`, `size = 5000`. -/
def pos1 : Position :=
  { trader := 1
    market_id := 2
    collateral := 1000
    size := 5000
    is_long := true
    entry_price := 100
    leverage := 5
    open_time := 0
    collateral_mint := 3
    last_funding_index := 0 }

/-- Sample market of the specification's concrete scenarios:
`max_leverage = 10`, `liquidation_threshold = 20`. -/
def mkt1 : Market :=
  { admin := 1
    oracle := 2
    market_id := 2
    min_collateral := 10
    max_leverage := 10
    liquidation_threshold := 20
    is_active := true
    last_funding_index := 0
    last_funding_time := 0
    bump := 0 }

-- Scenario checks from the specification (sanity of the embedding).
example : calculate_pnl pos1 110 = (500, 5) := by decide
example : calculate_pnl pos1 85 = (-750, 5) := by decide
example : liquidate_position pos1 mkt1 85 = Except.error AsterDexError.CannotLiquidateYet := by
  decide
example : liquidate_position pos1 mkt1 75 = Except.ok 30 := by decide
example : close_position pos1 110 = Except.ok (1495, 500, 5) := by decide

/-- At the entry price the delta is zero in both directions, so the pnl is
zero and only the fee remains. Helper for the round-trip claim. -/
theorem calculate_pnl_at_entry (p : Position) :
    calculate_pnl p p.entry_price = (0, p.size * 10 / 10000) := by
  unfold calculate_pnl
  simp [sub_self, ite_self, Int.zero_tdiv]

/-- C1: `calculate_pnl` returns `(pnl, fee)` with
`delta = current_price − entry_price` for longs and
`entry_price − current_price` for shorts,
`pnl = ((delta × 10000) tdiv entry_price × size) tdiv 10000` (Rust `i64`
division truncating toward zero at each step), and
`fee = size × 10 / 10000`, independent of direction and profitability.
The hypothesis is the source's documented caller obligation; Rust would
panic on `entry_price = 0`. -/
theorem calculate_pnl_formula (p : Position) (current_price : Nat)
    (h : p.entry_price ≠ 0) :
    calculate_pnl p current_price =
      (Int.tdiv (Int.tdiv ((if p.is_long then (current_price : Int) - (p.entry_price : Int)
            else (p.entry_price : Int) - (current_price : Int)) * 10000)
          (p.entry_price : Int) * (p.size : Int)) 10000,
        p.size * 10 / 10000) := rfl

/-- Witness for C1 at the specification's scenario 1
(long, collateral 1000, size 5000, entry 100, current 110). -/
theorem calculate_pnl_formula_witness :
    pos1.entry_price ≠ 0 ∧ calculate_pnl pos1 110 = (500, 5) := by
  refine ⟨by decide, ?_⟩
  rw [calculate_pnl_formula pos1 110 (by decide)]
  decide

/-- C2 (amended): for every accepted close, if `pnl ≥ 0` the settlement is
`collateral + pnl − fee` in signed arithmetic (no clamping in the source:
the value is negative exactly when the `u64` subtraction underflows, which
needs `fee > collateral + pnl`, impossible for leverage ≤ 1000); if
`pnl < 0` the settlement is `max(0, collateral + pnl − fee)` and is never
negative; and in the `pnl ≥ 0` branch nonnegativity holds whenever
`fee ≤ collateral + pnl`. -/
theorem close_settlement (p : Position) (current_price : Nat)
    (ret pnl : Int) (fee : Nat)
    (h : close_position p current_price = Except.ok (ret, pnl, fee)) :
    (0 ≤ pnl → ret = (p.collateral : Int) + pnl - (fee : Int)) ∧
    (pnl < 0 → ret = max 0 ((p.collateral : Int) + pnl - (fee : Int)) ∧ 0 ≤ ret) ∧
    (0 ≤ pnl → (fee : Int) ≤ (p.collateral : Int) + pnl → 0 ≤ ret) := by
  unfold close_position at h
  split_ifs at h with hsz
  · simp only [Except.ok.injEq, Prod.mk.injEq] at h
    obtain ⟨h1, h2, h3⟩ := h
    subst h2; subst h3
    by_cases hp : 0 ≤ (calculate_pnl p current_price).1
    · rw [if_pos hp] at h1
      subst h1
      refine ⟨fun _ => rfl, fun hneg => absurd hp (not_le.mpr hneg), fun _ hfee => ?_⟩
      omega
    · rw [if_neg hp] at h1
      subst h1
      push_neg at hp
      refine ⟨fun hpos => absurd hpos (not_le.mpr hp), fun _ => ⟨?_, ?_⟩,
        fun hpos => absurd hpos (not_le.mpr hp)⟩ <;> split_ifs <;> omega

/-- Witness for C2 at scenario 1: close at 110 pays 1000 + 500 − 5. -/
theorem close_settlement_witness :
    (1495 : Int) = (pos1.collateral : Int) + 500 - ((5 : Nat) : Int) :=
  (close_settlement pos1 110 1495 500 5 (by decide)).1 (by decide)

/-- Counterexample for C2 as stated: a position with `collateral = 10` and
`size = 20000` (leverage 2000, admissible because `initialize_market` never
validates `max_leverage`) closed at its entry price has `pnl = 0 ≥ 0`,
`fee = 20`, and settlement `collateral + pnl − fee = −10 < 0`: the claimed
"settlement is never negative" fails (the source's `u64` subtraction
underflows there — abort under overflow checks, wrap-around without; in no
semantics is a nonnegative `collateral + pnl − fee` paid). -/
theorem close_settlement_nonneg_cex :
    close_position
        { trader := 0, market_id := 0, collateral := 10, size := 20000, is_long := true,
          entry_price := 100, leverage := 2000, open_time := 0, collateral_mint := 0,
          last_funding_index := 0 } 100 = Except.ok (-10, 0, 20) ∧
      ¬ (0 ≤ (-10 : Int)) := by decide

/-- C3: for a position with `size > 0` and `collateral > 0`,
`liquidate_position` fails with `CannotLiquidateYet` exactly when the equity
percentage `((collateral + pnl) × 100) tdiv collateral` (signed, truncating)
is strictly above the market's `liquidation_threshold`, and succeeds — paying
the reward and destroying the position — exactly when it is `≤` the
threshold. -/
theorem liquidate_eligibility (p : Position) (m : Market) (current_price : Nat)
    (hs : 0 < p.size) (hc : 0 < p.collateral) :
    (liquidate_position p m current_price = Except.error AsterDexError.CannotLiquidateYet ↔
      (m.liquidation_threshold : Int) <
        Int.tdiv (((p.collateral : Int) + (calculate_pnl p current_price).1) * 100)
          (p.collateral : Int)) ∧
    (liquidate_position p m current_price = Except.ok (p.collateral * 3 / 100) ↔
      Int.tdiv (((p.collateral : Int) + (calculate_pnl p current_price).1) * 100)
        (p.collateral : Int) ≤ (m.liquidation_threshold : Int)) := by
  unfold liquidate_position
  rw [if_pos hs]
  dsimp only
  by_cases hle :
      Int.tdiv (((p.collateral : Int) + (calculate_pnl p current_price).1) * 100)
        (p.collateral : Int) ≤ (m.liquidation_threshold : Int)
  · rw [if_pos hle]
    exact ⟨iff_of_false (by simp) (by omega), iff_of_true rfl hle⟩
  · rw [if_neg hle]
    exact ⟨iff_of_true rfl (by omega), iff_of_false (by simp) hle⟩

/-- Witness for C3 at scenario 3 (price 75, equity −25% ≤ threshold 20):
liquidation succeeds and pays the 3% reward. -/
theorem liquidate_eligibility_witness :
    liquidate_position pos1 mkt1 75 = Except.ok 30 :=
  (liquidate_eligibility pos1 mkt1 75 (by decide) (by decide)).2.mpr (by decide)

/-- C4: every successful liquidation pays exactly
`collateral × 3 / 100`, independent of price and of how negative equity is. -/
theorem liquidation_reward_flat (p : Position) (m : Market) (current_price : Nat)
    (reward : Nat) (h : liquidate_position p m current_price = Except.ok reward) :
    reward = p.collateral * 3 / 100 := by
  unfold liquidate_position at h
  split_ifs at h with h1
  dsimp only at h
  split_ifs at h with h2
  injection h with h'
  exact h'.symm

/-- Witness for C4 at scenario 3: the reward is 30 = 1000 × 3 / 100. -/
theorem liquidation_reward_flat_witness :
    (30 : Nat) = pos1.collateral * 3 / 100 :=
  liquidation_reward_flat pos1 mkt1 75 30 (by decide)

/-- C5 (amended): `update_market` preserves the Market invariant on every
accepted partial update, rejecting `max_leverage` outside `[1, 100]` with
`InvalidLeverage` and `liquidation_threshold` outside `(0, 100)` with
`InvalidLiquidationThreshold`; `initialize_market`, which performs no
validation, establishes the invariant exactly when its arguments already
satisfy the bounds. -/
theorem market_invariant_amended :
    (∀ a o id minc maxlev liq, 1 ≤ maxlev → 0 < liq → liq < 100 →
        marketInvariant (initialize_market a o id minc maxlev liq)) ∧
    (∀ (m : Market) minc maxlev liq act m', marketInvariant m →
        update_market m minc maxlev liq act = Except.ok m' → marketInvariant m') ∧
    (∀ (m : Market) minc lev liq act, lev < 1 ∨ 100 < lev →
        update_market m minc (some lev) liq act =
          Except.error AsterDexError.InvalidLeverage) ∧
    (∀ (m : Market) minc maxlev t act, (∀ lev, maxlev = some lev → 1 ≤ lev ∧ lev ≤ 100) →
        t = 0 ∨ 100 ≤ t →
        update_market m minc maxlev (some t) act =
          Except.error AsterDexError.InvalidLiquidationThreshold) := by
  have hMinInv : ∀ (m : Market) (o : Option Nat), marketInvariant m →
      marketInvariant (applyMinCollateral m o) := by
    intro m o hm
    cases o with
    | none => exact hm
    | some v => exact ⟨hm.1, hm.2.1, hm.2.2.1, Nat.zero_le _⟩
  have hLevInv : ∀ (m m' : Market) (o : Option Nat), marketInvariant m →
      applyMaxLeverage m o = Except.ok m' → marketInvariant m' := by
    intro m m' o hm hx
    cases o with
    | none => injection hx with hx'; subst hx'; exact hm
    | some lev =>
      simp only [applyMaxLeverage] at hx
      split_ifs at hx with hv
      injection hx with hx'
      subst hx'
      exact ⟨hv.1, hm.2.1, hm.2.2.1, Nat.zero_le _⟩
  have hLiqInv : ∀ (m m' : Market) (o : Option Nat), marketInvariant m →
      applyLiquidationThreshold m o = Except.ok m' → marketInvariant m' := by
    intro m m' o hm hy
    cases o with
    | none => injection hy with hy'; subst hy'; exact hm
    | some tt =>
      simp only [applyLiquidationThreshold] at hy
      split_ifs at hy with hv
      injection hy with hy'
      subst hy'
      exact ⟨hm.1, hv.1, hv.2, Nat.zero_le _⟩
  refine ⟨?_, ?_, ?_, ?_⟩
  · intro a o id minc maxlev liq h1 h2 h3
    exact ⟨h1, h2, h3, Nat.zero_le _⟩
  · intro m minc maxlev liq act m' hm h
    unfold update_market at h
    dsimp only at h
    split at h
    · exact Except.noConfusion h
    next m2 hx =>
      split at h
      · exact Except.noConfusion h
      next m3 hy =>
        injection h with h'
        subst h'
        have hm3 : marketInvariant m3 :=
          hLiqInv _ _ _ (hLevInv _ _ _ (hMinInv m minc hm) hx) hy
        cases act with
        | none => exact hm3
        | some b => exact ⟨hm3.1, hm3.2.1, hm3.2.2.1, Nat.zero_le _⟩
  · intro m minc lev liq act hbad
    have hx : applyMaxLeverage (applyMinCollateral m minc) (some lev) =
        Except.error AsterDexError.InvalidLeverage := by
      simp only [applyMaxLeverage]
      rw [if_neg (by omega)]
    unfold update_market
    dsimp only
    rw [hx]
  · intro m minc maxlev tt act hmax hbad
    have hy : ∀ m2 : Market, applyLiquidationThreshold m2 (some tt) =
        Except.error AsterDexError.InvalidLiquidationThreshold := by
      intro m2
      simp only [applyLiquidationThreshold]
      rw [if_neg (by omega)]
    cases maxlev with
    | none =>
      unfold update_market
      dsimp only [applyMaxLeverage]
      rw [hy]
    | some lev =>
      have hv := hmax lev rfl
      have hx : applyMaxLeverage (applyMinCollateral m minc) (some lev) =
          Except.ok { applyMinCollateral m minc with max_leverage := lev } := by
        simp only [applyMaxLeverage]
        rw [if_pos (by omega)]
      unfold update_market
      dsimp only
      rw [hx]
      dsimp only
      rw [hy]

/-- Witness for C5: a validated initialization and a validated update both
satisfy the invariant. -/
theorem market_invariant_amended_witness :
    marketInvariant (initialize_market 1 2 3 5 10 50) :=
  market_invariant_amended.1 1 2 3 5 10 50 (by decide) (by decide) (by decide)

/-- Counterexample for C5 as stated: `initialize_market` performs no
validation, so it accepts `max_leverage = 0` and `liquidation_threshold =
150` and produces a Market violating the invariant. -/
theorem initialize_market_unvalidated_cex :
    ¬ marketInvariant (initialize_market 1 2 3 0 0 150) ∧
      (initialize_market 1 2 3 0 0 150).max_leverage = 0 ∧
      (initialize_market 1 2 3 0 0 150).liquidation_threshold = 150 := by decide

/-- C6 (amended): the stored `size` of every accepted open equals
`collateral_amount × leverage` reduced modulo `2 ^ 64` (the `u128 → u64`
narrowing in the source), which is the exact product exactly when that
product is below `2 ^ 64`; it is computed once at open and no operation ever
rewrites it (close and liquidate only read the position and destroy it). -/
theorem open_position_size_mod (m : Market) (user id : Nat) (isl : Bool)
    (c lev slip price : Nat) (t : Int) (mint : Nat) (p : Position)
    (h : open_position m user id isl c lev slip price t mint = Except.ok p) :
    p.size = c * lev % 2 ^ 64 ∧ (c * lev < 2 ^ 64 → p.size = c * lev) := by
  unfold open_position at h
  split_ifs at h
  injection h with h'
  subst h'
  exact ⟨rfl, fun hlt => Nat.mod_eq_of_lt hlt⟩

/-- Witness for C6: opening with collateral 1000 and leverage 5 stores
`size = 1000 × 5 % 2 ^ 64 = 5000`. -/
theorem open_position_size_mod_witness :
    (⟨7, 2, 1000, 5000, true, 100, 5, 0, 5, 0⟩ : Position).size = 1000 * 5 % 2 ^ 64 :=
  (open_position_size_mod mkt1 7 2 true 1000 5 0 100 0 5
    ⟨7, 2, 1000, 5000, true, 100, 5, 0, 5, 0⟩ (by decide)).1

/-- Counterexample for C6 as stated: on a perfectly valid market
(`max_leverage = 2`), opening with `collateral = 2 ^ 63` and `leverage = 2`
is accepted, and the stored size is `(2 ^ 63 × 2) as u64 = 0`, not the exact
product `2 ^ 64`. -/
theorem open_position_size_truncation_cex :
    (open_position
        { admin := 1, oracle := 2, market_id := 3, min_collateral := 0,
          max_leverage := 2, liquidation_threshold := 50, is_active := true,
          last_funding_index := 0, last_funding_time := 0, bump := 0 }
        7 3 true (2 ^ 63) 2 0 100 0 5).map Position.size = Except.ok 0 ∧
      (2 : Nat) ^ 63 * 2 ≠ 0 := by decide

/-- C7: `open_position` fails with `MarketInactive` iff the market is
inactive; with `InvalidLeverage` iff the market is active but
`leverage < 1` or `leverage > max_leverage`; with `InsufficientCollateral`
iff the market is active, the leverage admissible, but
`collateral_amount < min_collateral`; and succeeds (a position is created)
iff all three preconditions hold. A failure creates nothing and moves no
funds (`Except.error` aborts the whole instruction). -/
theorem open_position_validation (m : Market) (user id : Nat) (isl : Bool)
    (c lev slip price : Nat) (t : Int) (mint : Nat) :
    (open_position m user id isl c lev slip price t mint
        = Except.error AsterDexError.MarketInactive ↔ m.is_active = false) ∧
    (open_position m user id isl c lev slip price t mint
        = Except.error AsterDexError.InvalidLeverage ↔
      m.is_active = true ∧ (lev < 1 ∨ m.max_leverage < lev)) ∧
    (open_position m user id isl c lev slip price t mint
        = Except.error AsterDexError.InsufficientCollateral ↔
      m.is_active = true ∧ 1 ≤ lev ∧ lev ≤ m.max_leverage ∧ c < m.min_collateral) ∧
    ((∃ p, open_position m user id isl c lev slip price t mint = Except.ok p) ↔
      m.is_active = true ∧ 1 ≤ lev ∧ lev ≤ m.max_leverage ∧ m.min_collateral ≤ c) := by
  unfold open_position
  split_ifs with h1 h2 h3 <;> simp_all <;> omega

/-- C8: closing any live position at exactly its entry price yields
`pnl = 0` and settlement `collateral − fee` with `fee = size × 10 / 10000`
(the trading fee is still charged). -/
theorem close_roundtrip_same_price (p : Position)
    (h0 : p.entry_price ≠ 0) (hs : 0 < p.size) :
    close_position p p.entry_price =
      Except.ok ((p.collateral : Int) - ((p.size * 10 / 10000 : Nat) : Int), 0,
        p.size * 10 / 10000) := by
  unfold close_position
  rw [if_pos hs]
  simp only [calculate_pnl_at_entry]
  norm_num

/-- Witness for C8 at scenario 1: closing at the entry price 100 pays
`1000 − 5 = 995` with `pnl = 0`. -/
theorem close_roundtrip_same_price_witness :
    close_position pos1 100 = Except.ok (995, 0, 5) := by
  have h := close_roundtrip_same_price pos1 (by decide) (by decide)
  exact h

/-- C9 (amended): every accepted open freezes `entry_price` equal to the
oracle price it read, so `entry_price ≠ 0` holds exactly when that price is
nonzero; the code never checks the price, so a zero oracle price creates a
position whose `entry_price` is `0` (and `calculate_pnl` then divides by
zero). -/
theorem open_position_entry_price (m : Market) (user id : Nat) (isl : Bool)
    (c lev slip price : Nat) (t : Int) (mint : Nat) (p : Position)
    (h : open_position m user id isl c lev slip price t mint = Except.ok p) :
    p.entry_price = price ∧ (price ≠ 0 → p.entry_price ≠ 0) := by
  unfold open_position at h
  split_ifs at h
  injection h with h'
  subst h'
  exact ⟨rfl, fun hp => hp⟩

/-- Witness for C9: an open at oracle price 100 stores `entry_price = 100`. -/
theorem open_position_entry_price_witness :
    (⟨7, 2, 1000, 5000, true, 100, 5, 0, 5, 0⟩ : Position).entry_price = 100 :=
  (open_position_entry_price mkt1 7 2 true 1000 5 0 100 0 5
    ⟨7, 2, 1000, 5000, true, 100, 5, 0, 5, 0⟩ (by decide)).1

/-- Counterexample for C9 as stated: `open_position` accepts a zero oracle
price and creates a position with `entry_price = 0`, on which the source's
`calculate_pnl` divides by zero — `entry_price ≠ 0` is not guaranteed "by
construction". -/
theorem open_position_zero_entry_cex :
    (open_position mkt1 7 2 true 1000 5 0 0 0 5).map Position.entry_price =
      Except.ok 0 := by decide

/-- C10: a position created by `open_position` with `size > 0` has
`collateral > 0` (a zero collateral forces a zero truncated product), so the
divisor `position.collateral as i64` in `liquidate_position`'s equity
percentage is nonzero on every such position. -/
theorem open_position_size_pos_collateral_pos (m : Market) (user id : Nat) (isl : Bool)
    (c lev slip price : Nat) (t : Int) (mint : Nat) (p : Position)
    (h : open_position m user id isl c lev slip price t mint = Except.ok p)
    (hs : 0 < p.size) :
    0 < p.collateral ∧ ((p.collateral : Int) ≠ 0) := by
  unfold open_position at h
  split_ifs at h
  injection h with h'
  subst h'
  have hc : 0 < c := by
    rcases Nat.eq_zero_or_pos c with hc0 | hc0
    · subst hc0
      simp at hs
    · exact hc0
  exact ⟨hc, by exact_mod_cast hc.ne'⟩

/-- Witness for C10: the scenario-1 open has positive size and positive
collateral. -/
theorem open_position_size_pos_collateral_pos_witness :
    0 < (⟨7, 2, 1000, 5000, true, 100, 5, 0, 5, 0⟩ : Position).collateral :=
  (open_position_size_pos_collateral_pos mkt1 7 2 true 1000 5 0 100 0 5
    ⟨7, 2, 1000, 5000, true, 100, 5, 0, 5, 0⟩ (by decide) (by decide)).1

end AsterDex
